import Mathlib

/-!
Verification of the wire-based magnet field modelling core of
openPMD-beamphysics (`pmd_beamphysics/fields/corrector_modeling.py` and
`pmd_beamphysics/fields/fieldmesh.py`).

The numeric code is embedded over the real numbers: numpy arrays of
observation points become functions of a single observation point
(every array operation in the source is pointwise), Python `assert` /
`raise` become `Except`, and Python `None`-able parameters become
`Option`.
-/

namespace PmdBeamphysics

/-- A 3-component real vector (numpy shape-(3,) array). -/
@[ext]
structure Vec3 where
  x : ℝ
  y : ℝ
  z : ℝ

namespace Vec3

instance : Zero Vec3 := ⟨⟨0, 0, 0⟩⟩
instance : Add Vec3 := ⟨fun a b => ⟨a.x + b.x, a.y + b.y, a.z + b.z⟩⟩
instance : Sub Vec3 := ⟨fun a b => ⟨a.x - b.x, a.y - b.y, a.z - b.z⟩⟩
instance : Neg Vec3 := ⟨fun a => ⟨-a.x, -a.y, -a.z⟩⟩
instance : SMul ℝ Vec3 := ⟨fun t a => ⟨t * a.x, t * a.y, t * a.z⟩⟩

@[simp] lemma zero_x : (0 : Vec3).x = 0 := rfl
@[simp] lemma zero_y : (0 : Vec3).y = 0 := rfl
@[simp] lemma zero_z : (0 : Vec3).z = 0 := rfl
@[simp] lemma add_x (a b : Vec3) : (a + b).x = a.x + b.x := rfl
@[simp] lemma add_y (a b : Vec3) : (a + b).y = a.y + b.y := rfl
@[simp] lemma add_z (a b : Vec3) : (a + b).z = a.z + b.z := rfl
@[simp] lemma sub_x (a b : Vec3) : (a - b).x = a.x - b.x := rfl
@[simp] lemma sub_y (a b : Vec3) : (a - b).y = a.y - b.y := rfl
@[simp] lemma sub_z (a b : Vec3) : (a - b).z = a.z - b.z := rfl
@[simp] lemma neg_x (a : Vec3) : (-a).x = -a.x := rfl
@[simp] lemma neg_y (a : Vec3) : (-a).y = -a.y := rfl
@[simp] lemma neg_z (a : Vec3) : (-a).z = -a.z := rfl
@[simp] lemma smul_x (t : ℝ) (a : Vec3) : (t • a).x = t * a.x := rfl
@[simp] lemma smul_y (t : ℝ) (a : Vec3) : (t • a).y = t * a.y := rfl
@[simp] lemma smul_z (t : ℝ) (a : Vec3) : (t • a).z = t * a.z := rfl

instance : AddCommMonoid Vec3 where
  add_assoc a b c := by ext <;> simp <;> ring
  zero_add a := by ext <;> simp
  add_zero a := by ext <;> simp
  add_comm a b := by ext <;> simp <;> ring
  nsmul := nsmulRec

/-- Dot product (`np.dot` on 3-vectors). -/
def dot (a b : Vec3) : ℝ := a.x * b.x + a.y * b.y + a.z * b.z

/-- Cross product (`np.cross` on 3-vectors). -/
def cross (a b : Vec3) : Vec3 :=
  ⟨a.y * b.z - a.z * b.y, a.z * b.x - a.x * b.z, a.x * b.y - a.y * b.x⟩

/-- Euclidean norm (`np.linalg.norm` on a 3-vector). -/
noncomputable def norm (v : Vec3) : ℝ := Real.sqrt (dot v v)

lemma dot_self_nonneg (v : Vec3) : 0 ≤ dot v v := by
  have hx := mul_self_nonneg v.x
  have hy := mul_self_nonneg v.y
  have hz := mul_self_nonneg v.z
  unfold dot
  linarith

lemma norm_nonneg (v : Vec3) : 0 ≤ norm v := Real.sqrt_nonneg _

lemma norm_sq (v : Vec3) : norm v ^ 2 = dot v v :=
  Real.sq_sqrt (dot_self_nonneg v)

lemma norm_eq_zero_iff (v : Vec3) : norm v = 0 ↔ v = 0 := by
  unfold norm
  rw [Real.sqrt_eq_zero (dot_self_nonneg v)]
  constructor
  · intro h
    simp only [dot] at h
    have hx : v.x * v.x = 0 :=
      le_antisymm (by nlinarith [mul_self_nonneg v.y, mul_self_nonneg v.z]) (mul_self_nonneg v.x)
    have hy : v.y * v.y = 0 :=
      le_antisymm (by nlinarith [mul_self_nonneg v.x, mul_self_nonneg v.z]) (mul_self_nonneg v.y)
    have hz : v.z * v.z = 0 :=
      le_antisymm (by nlinarith [mul_self_nonneg v.x, mul_self_nonneg v.y]) (mul_self_nonneg v.z)
    ext <;> simp [mul_self_eq_zero.mp hx, mul_self_eq_zero.mp hy, mul_self_eq_zero.mp hz]
  · intro h
    subst h
    simp [dot]

lemma norm_pos_of_ne_zero {v : Vec3} (h : v ≠ 0) : 0 < norm v := by
  rcases lt_or_eq_of_le (norm_nonneg v) with hlt | heq
  · exact hlt
  · exact absurd ((norm_eq_zero_iff v).mp heq.symm) h

lemma sub_ne_zero_of_ne {a b : Vec3} (h : a ≠ b) : b - a ≠ 0 := by
  intro hc
  apply h
  have hx := congrArg Vec3.x hc
  have hy := congrArg Vec3.y hc
  have hz := congrArg Vec3.z hc
  simp at hx hy hz
  ext <;> linarith

lemma norm_sub_swap (a b : Vec3) : norm (a - b) = norm (b - a) := by
  unfold norm
  congr 1
  simp [dot]
  ring

@[simp] lemma sub_self (a : Vec3) : a - a = 0 := by ext <;> simp

@[simp] lemma norm_zero : norm (0 : Vec3) = 0 := by
  simp [norm, dot]

lemma dot_neg_right (a b : Vec3) : dot a (-b) = -dot a b := by
  simp [dot]
  ring

lemma dot_smul_right (t : ℝ) (a b : Vec3) : dot a (t • b) = t * dot a b := by
  simp [dot]
  ring

lemma smul_neg' (t : ℝ) (a : Vec3) : t • (-a) = (-t) • a := by
  ext <;> simp

lemma neg_smul' (t : ℝ) (a : Vec3) : (-t) • a = -(t • a) := by
  ext <;> simp

lemma smul_smul' (s t : ℝ) (a : Vec3) : s • (t • a) = (s * t) • a := by
  ext <;> simp <;> ring

lemma one_smul' (a : Vec3) : (1 : ℝ) • a = a := by ext <;> simp

lemma add_smul' (s t : ℝ) (a : Vec3) : (s + t) • a = s • a + t • a := by
  ext <;> simp <;> ring

lemma cross_neg_left (a b : Vec3) : cross (-a) b = -cross a b := by
  ext <;> simp [cross] <;> ring

end Vec3

/-- `scipy.constants.mu_0` (vacuum permeability, CODATA value used by scipy). -/
noncomputable def u0 : ℝ := 1.25663706212e-6

open Real Vec3

/-!
`bfield_from_thin_straight_wire` (corrector_modeling.py, lines 64-151).

The numpy implementation evaluates the field at a whole array of
observation points at once; every step is pointwise in the observation
point, so the embedding takes a single observation point `P`.  The local
variables of the source (`Lhat`, `tmin`, `lmin`, `e2`, `e3`, `x1`, `x2`,
`R`, `B0`) are given as named definitions, with the segment endpoints
`p1`, `p2` and the observation point `P` as parameters.
-/

namespace Wire

/-- `Lhat = L / np.linalg.norm(L)` with `L = p2 - p1`. -/
noncomputable def Lhat (p1 p2 : Vec3) : Vec3 :=
  (1 / Vec3.norm (p2 - p1)) • (p2 - p1)

/-- `tmin = np.dot(P - p1, Lhat)`. -/
noncomputable def tmin (p1 p2 P : Vec3) : ℝ := dot (P - p1) (Lhat p1 p2)

/-- `lmin = p1 + tmin * Lhat` (nearest point on the infinite line to `P`). -/
noncomputable def lmin (p1 p2 P : Vec3) : Vec3 := p1 + tmin p1 p2 P • Lhat p1 p2

/-- `R = np.linalg.norm(P - lmin)` (perpendicular distance to the line). -/
noncomputable def Rdist (p1 p2 P : Vec3) : ℝ := Vec3.norm (P - lmin p1 p2 P)

/-- `e2 = (P - lmin) / R` (unit radial vector). -/
noncomputable def e2 (p1 p2 P : Vec3) : Vec3 :=
  (1 / Rdist p1 p2 P) • (P - lmin p1 p2 P)

/-- `e3 = np.cross(e1, e2)` with `e1 = Lhat` (field direction). -/
noncomputable def e3 (p1 p2 P : Vec3) : Vec3 := cross (Lhat p1 p2) (e2 p1 p2 P)

/-- `x1 = np.dot(p1 - lmin, e1)`. -/
noncomputable def x1 (p1 p2 P : Vec3) : ℝ := dot (p1 - lmin p1 p2 P) (Lhat p1 p2)

/-- `x2 = np.dot(p2 - lmin, e1)`. -/
noncomputable def x2 (p1 p2 P : Vec3) : ℝ := dot (p2 - lmin p1 p2 P) (Lhat p1 p2)

/-- `B0 = (u0 * current / (4 * pi * R)) * (x2/sqrt(x2**2 + R**2) - x1/sqrt(x1**2 + R**2))`. -/
noncomputable def B0 (p1 p2 P : Vec3) (current : ℝ) : ℝ :=
  u0 * current / (4 * π * Rdist p1 p2 P) *
    (x2 p1 p2 P / Real.sqrt (x2 p1 p2 P ^ 2 + Rdist p1 p2 P ^ 2) -
     x1 p1 p2 P / Real.sqrt (x1 p1 p2 P ^ 2 + Rdist p1 p2 P ^ 2))

end Wire

/-- The field value `B = B0 * e3` computed by `bfield_from_thin_straight_wire`
at one observation point (the numeric core, after the degeneracy assert). -/
noncomputable def bfield_from_thin_straight_wire (P p1 p2 : Vec3) (current : ℝ) : Vec3 :=
  Wire.B0 p1 p2 P current • Wire.e3 p1 p2 P

/-- The `AssertionError` raised by the degeneracy check in
`bfield_from_thin_straight_wire`; the spec's error taxonomy calls this a
`GeometryError`. -/
inductive GeometryError where
  | geometryError (msg : String) : GeometryError
deriving DecidableEq

open scoped Classical in
/-- `bfield_from_thin_straight_wire` with its control flow: the assert
`np.linalg.norm(p2 - p1) > 0` guards all computation, and the final
`if plot_wire and return_axes:` branch contains a bare tuple expression
(no `return`), so the function returns `None` there; otherwise it
returns the field components. -/
noncomputable def bfield_from_thin_straight_wire_checked
    (P p1 p2 : Vec3) (current : ℝ) (plot_wire return_axes : Bool) :
    Except GeometryError (Option Vec3) :=
  if 0 < Vec3.norm (p2 - p1) then
    if plot_wire && return_axes then
      Except.ok none
    else
      Except.ok (some (bfield_from_thin_straight_wire P p1 p2 current))
  else
    Except.error (.geometryError ("Line must be specified by 2 distinct points"))

namespace Wire

lemma Lhat_swap (p1 p2 : Vec3) : Lhat p2 p1 = -Lhat p1 p2 := by
  unfold Lhat
  rw [norm_sub_swap]
  ext <;> simp <;> ring

lemma proj_self {p1 p2 : Vec3} (h : p1 ≠ p2) :
    dot (p2 - p1) (Lhat p1 p2) • Lhat p1 p2 = p2 - p1 := by
  have hs : 0 < Vec3.norm (p2 - p1) := norm_pos_of_ne_zero (sub_ne_zero_of_ne h)
  unfold Lhat
  rw [dot_smul_right, smul_smul', ← norm_sq]
  have hcoeff : 1 / Vec3.norm (p2 - p1) * Vec3.norm (p2 - p1) ^ 2 *
      (1 / Vec3.norm (p2 - p1)) = 1 := by
    field_simp
    ring
  rw [hcoeff, one_smul']

lemma lmin_swap {p1 p2 : Vec3} (h : p1 ≠ p2) (P : Vec3) :
    lmin p2 p1 P = lmin p1 p2 P := by
  unfold lmin tmin
  rw [Lhat_swap, dot_neg_right, smul_neg', neg_neg]
  have hd : dot (P - p1) (Lhat p1 p2) =
      dot (P - p2) (Lhat p1 p2) + dot (p2 - p1) (Lhat p1 p2) := by
    simp [dot]
    ring
  rw [hd, add_smul', proj_self h]
  ext <;> simp <;> ring

lemma Rdist_swap {p1 p2 : Vec3} (h : p1 ≠ p2) (P : Vec3) :
    Rdist p2 p1 P = Rdist p1 p2 P := by
  unfold Rdist
  rw [lmin_swap h]

lemma e2_swap {p1 p2 : Vec3} (h : p1 ≠ p2) (P : Vec3) :
    e2 p2 p1 P = e2 p1 p2 P := by
  unfold e2
  rw [lmin_swap h, Rdist_swap h]

lemma e3_swap {p1 p2 : Vec3} (h : p1 ≠ p2) (P : Vec3) :
    e3 p2 p1 P = -e3 p1 p2 P := by
  unfold e3
  rw [Lhat_swap, e2_swap h, cross_neg_left]

lemma x1_swap {p1 p2 : Vec3} (h : p1 ≠ p2) (P : Vec3) :
    x1 p2 p1 P = -x2 p1 p2 P := by
  unfold x1 x2
  rw [lmin_swap h, Lhat_swap, dot_neg_right]

lemma x2_swap {p1 p2 : Vec3} (h : p1 ≠ p2) (P : Vec3) :
    x2 p2 p1 P = -x1 p1 p2 P := by
  unfold x1 x2
  rw [lmin_swap h, Lhat_swap, dot_neg_right]

lemma B0_swap {p1 p2 : Vec3} (h : p1 ≠ p2) (P : Vec3) (current : ℝ) :
    B0 p2 p1 P (-current) = -B0 p1 p2 P current := by
  unfold B0
  rw [x1_swap h, x2_swap h, Rdist_swap h, neg_sq, neg_sq]
  ring

end Wire

/-- `bfield_from_thin_rectangular_coil` (corrector_modeling.py, lines 154-215):
four straight segments `p1→p2→p3→p4→p1` around the rectangle of width `a`
(x-axis) and depth `b` (z-axis) at height `y0`, fields summed. -/
noncomputable def bfield_from_thin_rectangular_coil
    (P : Vec3) (a b y0 current : ℝ) : Vec3 :=
  let p1 : Vec3 := ⟨-a / 2, y0, -b / 2⟩
  let p2 : Vec3 := ⟨a / 2, y0, -b / 2⟩
  let p3 : Vec3 := ⟨a / 2, y0, b / 2⟩
  let p4 : Vec3 := ⟨-a / 2, y0, b / 2⟩
  bfield_from_thin_straight_wire P p1 p2 current +
    bfield_from_thin_straight_wire P p2 p3 current +
    bfield_from_thin_straight_wire P p3 p4 current +
    bfield_from_thin_straight_wire P p4 p1 current

/-- `bfield_from_thin_rectangular_corrector` (corrector_modeling.py, lines
218-265): the two rectangular coils at `y0 = -h/2` and `y0 = +h/2`, same
current, fields summed. -/
noncomputable def bfield_from_thin_rectangular_corrector
    (P : Vec3) (a b h current : ℝ) : Vec3 :=
  bfield_from_thin_rectangular_coil P a b (-h / 2) current +
    bfield_from_thin_rectangular_coil P a b (h / 2) current

/-- `rotate_around_e3` (corrector_modeling.py, lines 268-309), applied to a
vector.  Note the source returns `[[C, -S, 0], [S, C, 0], [0, 0, 0]]`: the
bottom-right entry is `0`, not `1`, so the third output component is always
zero. -/
noncomputable def rotate_around_e3 (theta : ℝ) (v : Vec3) : Vec3 :=
  ⟨Real.cos theta * v.x + -Real.sin theta * v.y,
   Real.sin theta * v.x + Real.cos theta * v.y,
   0⟩

/-- `np.linspace(lo, hi, n)` element `i` (real semantics: `lo + i*(hi-lo)/(n-1)`). -/
noncomputable def linspace (lo hi : ℝ) (n : ℕ) (i : ℕ) : ℝ :=
  lo + i * ((hi - lo) / ((n : ℝ) - 1))

/-- `get_arc_vectors` (corrector_modeling.py, lines 312-378) with the default
normal `arc_e3 = [0, 0, 1]` (the only value used in this repository; the
source's `assert np.isclose(np.dot(arc_e1, arc_e3), 0)` is identically
satisfied for it, since `arc_e1` has zero third component). -/
noncomputable def get_arc_vectors (h R theta : ℝ) (npts : ℕ) : List Vec3 :=
  let phi := (π - theta) / 2
  let arc_e1 := rotate_around_e3 phi ⟨1, 0, 0⟩
  (List.range npts).map (fun ii =>
    (⟨0, 0, h⟩ : Vec3) + R • rotate_around_e3 (linspace 0 theta npts ii) arc_e1)

/-- `bfield_from_thin_wire_arc` (corrector_modeling.py, lines 405-427): the
fields of the straight segments chaining consecutive arc points, summed. -/
noncomputable def bfield_from_thin_wire_arc
    (P : Vec3) (h R theta : ℝ) (npts : ℕ) (current : ℝ) : Vec3 :=
  ∑ ii ∈ Finset.range ((get_arc_vectors h R theta npts).length - 1),
    bfield_from_thin_straight_wire P ((get_arc_vectors h R theta npts).getD ii 0)
      ((get_arc_vectors h R theta npts).getD (ii + 1) 0) current

/-- `bfield_from_thin_saddle_coil` (corrector_modeling.py, lines 430-465):
two arcs at axial offsets `∓L/2` with opposite opening-angle sign, plus two
straight axial return legs at azimuths `φ` and `π - φ`. -/
noncomputable def bfield_from_thin_saddle_coil
    (P : Vec3) (L R theta current : ℝ) (npts : ℕ) : Vec3 :=
  let phi := (π - theta) / 2
  let p11 : Vec3 := ⟨R * Real.cos phi, R * Real.sin phi, L / 2⟩
  let p21 : Vec3 := ⟨R * Real.cos phi, R * Real.sin phi, -L / 2⟩
  let p12 : Vec3 := ⟨-(R * Real.cos phi), R * Real.sin phi, -L / 2⟩
  let p22 : Vec3 := ⟨-(R * Real.cos phi), R * Real.sin phi, L / 2⟩
  bfield_from_thin_wire_arc P (-L / 2) R theta npts current +
    bfield_from_thin_wire_arc P (L / 2) R (-theta) npts current +
    bfield_from_thin_straight_wire P p11 p21 current +
    bfield_from_thin_straight_wire P p12 p22 current

/-- `bfield_from_thin_saddle_corrector` (corrector_modeling.py, lines
468-476): two saddle coils with `(L, R)` and `(-L, -R)`, fields summed. -/
noncomputable def bfield_from_thin_saddle_corrector
    (P : Vec3) (L R theta current : ℝ) (npts : ℕ) : Vec3 :=
  bfield_from_thin_saddle_coil P L R theta current npts +
    bfield_from_thin_saddle_coil P (-L) (-R) theta current npts

/-! The FieldMesh data container (fieldmesh.py). -/

/-- A numpy ndarray of field samples: a shape record plus the sample values
(indices outside the shape are irrelevant). -/
structure FieldArray where
  shape : ℕ × ℕ × ℕ
  data : ℕ → ℕ → ℕ → ℝ

/-- The `_data` of a `FieldMesh`: the attrs dict written by the mesh builders
of corrector_modeling.py, plus the components dict (canonical component name
→ sample array). -/
structure FieldMeshData where
  gridOriginOffset : ℝ × ℝ × ℝ
  gridSpacing : ℝ × ℝ × ℝ
  gridSize : ℕ × ℕ × ℕ
  eleAnchorPt : String
  gridGeometry : String
  axisLabels : String × String × String
  gridLowerBound : ℕ × ℕ × ℕ
  harmonic : ℤ
  fundamentalFrequency : ℝ
  components : List (String × FieldArray)

/-- Modelled from the spec: the fixed alias registry `component_from_alias`
lives in `pmd_beamphysics.readers`, which is not among the sources; the spec
describes it as "a fixed registry mapping aliases (Bx, By, Bz, Er, Ez, …) to
canonical paths" such as `magneticField/x`. -/
def component_from_alias : List (String × String) :=
  [("Ex", "electricField/x"), ("Ey", "electricField/y"), ("Ez", "electricField/z"),
   ("Er", "electricField/r"), ("Etheta", "electricField/theta"),
   ("Bx", "magneticField/x"), ("By", "magneticField/y"), ("Bz", "magneticField/z"),
   ("Br", "magneticField/r"), ("Btheta", "magneticField/theta")]

/-- `axis_labels_from_geometry` (fieldmesh.py, lines 27-30): its only keys
are `cartesian` and `cylindrical`. -/
def axis_labels_from_geometry : List (String × (String × String × String)) :=
  [("cartesian", ("x", "y", "z")), ("cylindrical", ("r", "theta", "z"))]

/-- Python exceptions surfaced by the FieldMesh accessors. -/
inductive LookupError where
  | keyError (key : String) : LookupError        -- dict access with a missing key
  | valueError (msg : String) : LookupError      -- explicit `raise ValueError(...)`
  | runtimeError : LookupError                   -- the bare `raise` in `B`/`E`
  | attributeError (name : String) : LookupError -- missing injected alias attribute
deriving DecidableEq

namespace FieldMeshData

/-- `np.hypot` applied elementwise to two component arrays. -/
noncomputable def hypotArray (a b : FieldArray) : FieldArray :=
  ⟨a.shape, fun i j k => Real.sqrt (a.data i j k ^ 2 + b.data i j k ^ 2)⟩

/-- `np.abs` applied elementwise. -/
def absArray (a : FieldArray) : FieldArray :=
  ⟨a.shape, fun i j k => |a.data i j k|⟩

/-- The component-or-alias part of `__getitem__` (fieldmesh.py, lines
340-347): a stored canonical key, else an alias resolving to a stored key;
`none` when both fail (the code then falls through). -/
def getByKeyOrAlias (m : FieldMeshData) (key : String) : Option FieldArray :=
  match m.components.lookup key with
  | some a => some a
  | none =>
    match component_from_alias.lookup key with
    | some comp => m.components.lookup comp
    | none => none

/-- The `B` property (fieldmesh.py, lines 215-221): `np.hypot(self['Br'],
self['Bz'])` for cylindrical geometry, a bare `raise` otherwise. -/
noncomputable def Bmag (m : FieldMeshData) : Except LookupError FieldArray :=
  if m.gridGeometry = "cylindrical" then
    match getByKeyOrAlias m ("Br") with
    | none => .error (.valueError ("Key not available: Br"))
    | some br =>
      match getByKeyOrAlias m ("Bz") with
      | none => .error (.valueError ("Key not available: Bz"))
      | some bz => .ok (hypotArray br bz)
  else .error .runtimeError

/-- The `E` property (fieldmesh.py, lines 225-230):
`np.hypot(np.abs(self.Er), np.abs(self.Ez))` for cylindrical geometry (the
`Er`/`Ez` attributes exist only when the canonical components are stored), a
bare `raise` otherwise. -/
noncomputable def Emag (m : FieldMeshData) : Except LookupError FieldArray :=
  if m.gridGeometry = "cylindrical" then
    match m.components.lookup ("electricField/r") with
    | none => .error (.attributeError ("Er"))
    | some er =>
      match m.components.lookup ("electricField/z") with
      | none => .error (.attributeError ("Ez"))
      | some ez => .ok (hypotArray (absArray er) (absArray ez))
  else .error .runtimeError

/-- The tail of `__getitem__` (fieldmesh.py, lines 349-354), reached when the
key is neither stored nor an alias of a stored component. -/
noncomputable def getitemFallback (m : FieldMeshData) (key : String) :
    Except LookupError FieldArray :=
  if key = "E" then m.Emag
  else if key = "B" then m.Bmag
  else .error (.valueError ("Key not available: " ++ key))

/-- `FieldMesh.__getitem__` (fieldmesh.py, lines 333-354). -/
noncomputable def getitem (m : FieldMeshData) (key : String) :
    Except LookupError FieldArray :=
  match m.getByKeyOrAlias key with
  | some a => .ok a
  | none => m.getitemFallback key

/-- The `axis_labels` property (fieldmesh.py, lines 118-123):
`axis_labels_from_geometry[self.geometry]`, a dict access that raises
`KeyError` when the geometry is not a key; the stored `axisLabels` attribute
is not consulted. -/
def axis_labels (m : FieldMeshData) : Except LookupError (String × String × String) :=
  match axis_labels_from_geometry.lookup m.gridGeometry with
  | some labels => .ok labels
  | none => .error (.keyError m.gridGeometry)

/-- `axis_index` (fieldmesh.py, lines 125-136): scans `axis_labels` for the
key, raising `ValueError` if absent (and propagating the `axis_labels`
exception). -/
def axis_index (m : FieldMeshData) (key : String) : Except LookupError ℕ :=
  match m.axis_labels with
  | .error e => .error e
  | .ok (l0, l1, l2) =>
    if l0 = key then .ok 0
    else if l1 = key then .ok 1
    else if l2 = key then .ok 2
    else .error (.valueError ("Axis not found: " ++ key))

/-- Select component `i` of a triple (axis index 0, 1 or 2). -/
def pick {α : Type} (i : ℕ) (t : α × α × α) : α :=
  if i = 0 then t.1 else if i = 1 then t.2.1 else t.2.2

/-- The `min` property (fieldmesh.py, lines 162-164). -/
def minv (m : FieldMeshData) : ℝ × ℝ × ℝ := m.gridOriginOffset

/-- The `max` property (fieldmesh.py, lines 168-170):
`delta*(gridSize-1) + min`, componentwise. -/
def maxv (m : FieldMeshData) : ℝ × ℝ × ℝ :=
  (m.gridSpacing.1 * ((m.gridSize.1 : ℝ) - 1) + m.gridOriginOffset.1,
   m.gridSpacing.2.1 * ((m.gridSize.2.1 : ℝ) - 1) + m.gridOriginOffset.2.1,
   m.gridSpacing.2.2 * ((m.gridSize.2.2 : ℝ) - 1) + m.gridOriginOffset.2.2)

/-- `coord_vec` (fieldmesh.py, lines 145-150):
`np.linspace(self.min[i], self.max[i], self.shape[i])` for the axis index of
`key` (propagating the `axis_index` exception). -/
noncomputable def coord_vec (m : FieldMeshData) (key : String) :
    Except LookupError (ℕ → ℝ) :=
  match m.axis_index key with
  | .error e => .error e
  | .ok i => .ok (linspace (pick i m.minv) (pick i m.maxv) (pick i m.gridSize))

end FieldMeshData

/-! The mesh builders (corrector_modeling.py, lines 479-1028). -/

/-- `make_rectangular_dipole_corrector_fieldmesh` (corrector_modeling.py,
lines 479-597): `xs = np.linspace(xmin, xmax, nx)` (same for y, z), the
meshgrid field of the rectangular corrector, spacing `np.diff(xs)[0] =
xs[1] - xs[0]`, and the attrs dict exactly as written in the source. -/
noncomputable def make_rectangular_dipole_corrector_fieldmesh
    (a b h current xmin xmax ymin ymax zmin zmax : ℝ) (nx ny nz : ℕ) :
    FieldMeshData :=
  let xs := linspace xmin xmax nx
  let ys := linspace ymin ymax ny
  let zs := linspace zmin zmax nz
  let Bx : FieldArray := ⟨(nx, ny, nz), fun i j k =>
    (bfield_from_thin_rectangular_corrector ⟨xs i, ys j, zs k⟩ a b h current).x⟩
  let By : FieldArray := ⟨(nx, ny, nz), fun i j k =>
    (bfield_from_thin_rectangular_corrector ⟨xs i, ys j, zs k⟩ a b h current).y⟩
  let Bz : FieldArray := ⟨(nx, ny, nz), fun i j k =>
    (bfield_from_thin_rectangular_corrector ⟨xs i, ys j, zs k⟩ a b h current).z⟩
  { gridOriginOffset := (xs 0, ys 0, zs 0)
    gridSpacing := (xs 1 - xs 0, ys 1 - ys 0, zs 1 - zs 0)
    gridSize := Bx.shape
    eleAnchorPt := "center"
    gridGeometry := "rectangular"
    axisLabels := ("x", "y", "z")
    gridLowerBound := (0, 0, 0)
    harmonic := 0
    fundamentalFrequency := 0
    components :=
      [("magneticField/x", Bx), ("magneticField/y", By), ("magneticField/z", Bz)] }

/-- Python exceptions raised by the parameter handling of the dipole
corrector builders; the spec's taxonomy calls the `ValueError`s raised for
missing/invalid configuration `ConfigurationError`s. -/
inductive PyError where
  | valueError (msg : String) : PyError
  | typeError (msg : String) : PyError
deriving DecidableEq

/-- `make_saddle_dipole_corrector_fieldmesh` (corrector_modeling.py, lines
600-726), with `npts` kept optional as passed by
`make_dipole_corrector_fieldmesh`: `npts=None` reaches
`np.linspace(0, theta, None)` inside `get_arc_vectors`, a `TypeError`. -/
noncomputable def make_saddle_dipole_corrector_fieldmesh
    (R L theta current xmin xmax ymin ymax zmin zmax : ℝ) (nx ny nz : ℕ)
    (npts : Option ℕ) : Except PyError FieldMeshData :=
  match npts with
  | none => .error (.typeError ("NoneType object cannot be interpreted as an integer"))
  | some n =>
    let xs := linspace xmin xmax nx
    let ys := linspace ymin ymax ny
    let zs := linspace zmin zmax nz
    let Bx : FieldArray := ⟨(nx, ny, nz), fun i j k =>
      (bfield_from_thin_saddle_corrector ⟨xs i, ys j, zs k⟩ L R theta current n).x⟩
    let By : FieldArray := ⟨(nx, ny, nz), fun i j k =>
      (bfield_from_thin_saddle_corrector ⟨xs i, ys j, zs k⟩ L R theta current n).y⟩
    let Bz : FieldArray := ⟨(nx, ny, nz), fun i j k =>
      (bfield_from_thin_saddle_corrector ⟨xs i, ys j, zs k⟩ L R theta current n).z⟩
    .ok
      { gridOriginOffset := (xs 0, ys 0, zs 0)
        gridSpacing := (xs 1 - xs 0, ys 1 - ys 0, zs 1 - zs 0)
        gridSize := Bx.shape
        eleAnchorPt := "center"
        gridGeometry := "rectangular"
        axisLabels := ("x", "y", "z")
        gridLowerBound := (0, 0, 0)
        harmonic := 0
        fundamentalFrequency := 0
        components :=
          [("magneticField/x", Bx), ("magneticField/y", By), ("magneticField/z", Bz)] }

/-- `make_thin_straight_wire_fieldmesh` (corrector_modeling.py, lines
907-1028), after its grid-bound asserts (all bounds are supplied here). -/
noncomputable def make_thin_straight_wire_fieldmesh
    (p1 p2 : Vec3) (current xmin xmax ymin ymax zmin zmax : ℝ) (nx ny nz : ℕ) :
    FieldMeshData :=
  let xs := linspace xmin xmax nx
  let ys := linspace ymin ymax ny
  let zs := linspace zmin zmax nz
  let Bx : FieldArray := ⟨(nx, ny, nz), fun i j k =>
    (bfield_from_thin_straight_wire ⟨xs i, ys j, zs k⟩ p1 p2 current).x⟩
  let By : FieldArray := ⟨(nx, ny, nz), fun i j k =>
    (bfield_from_thin_straight_wire ⟨xs i, ys j, zs k⟩ p1 p2 current).y⟩
  let Bz : FieldArray := ⟨(nx, ny, nz), fun i j k =>
    (bfield_from_thin_straight_wire ⟨xs i, ys j, zs k⟩ p1 p2 current).z⟩
  { gridOriginOffset := (xs 0, ys 0, zs 0)
    gridSpacing := (xs 1 - xs 0, ys 1 - ys 0, zs 1 - zs 0)
    gridSize := Bx.shape
    eleAnchorPt := "center"
    gridGeometry := "rectangular"
    axisLabels := ("x", "y", "z")
    gridLowerBound := (0, 0, 0)
    harmonic := 0
    fundamentalFrequency := 0
    components :=
      [("magneticField/x", Bx), ("magneticField/y", By), ("magneticField/z", Bz)] }

/-- A defaulted grid bound in the saddle branch: `xmin = -R` when `xmin` is
`None`; with `R` also `None`, Python's unary minus on `None` raises
`TypeError` (corrector_modeling.py, lines 870-874). -/
noncomputable def saddleDefaultNeg (bound R : Option ℝ) : Except PyError ℝ :=
  match bound with
  | some v => .ok v
  | none =>
    match R with
    | some r => .ok (-r)
    | none => .error (.typeError ("bad operand type for unary minus: NoneType"))

/-- `xmax = +R` when `xmax` is `None` (corrector_modeling.py, lines 879-883). -/
def saddleDefaultPos (bound R : Option ℝ) : Except PyError ℝ :=
  match bound with
  | some v => .ok v
  | none =>
    match R with
    | some r => .ok r
    | none => .error (.typeError ("bad operand type for unary plus: NoneType"))

/-- `zmin = -5*L/2` when `zmin` is `None` (corrector_modeling.py, lines
876-877); `5*L` with `L = None` raises `TypeError`. -/
noncomputable def saddleDefaultZmin (bound L : Option ℝ) : Except PyError ℝ :=
  match bound with
  | some v => .ok v
  | none =>
    match L with
    | some l => .ok (-(5 * l) / 2)
    | none => .error (.typeError ("unsupported operand types for multiply: int and NoneType"))

/-- `zmax = +5*L/2` when `zmax` is `None` (corrector_modeling.py, lines
885-886). -/
noncomputable def saddleDefaultZmax (bound L : Option ℝ) : Except PyError ℝ :=
  match bound with
  | some v => .ok v
  | none =>
    match L with
    | some l => .ok (5 * l / 2)
    | none => .error (.typeError ("unsupported operand types for multiply: int and NoneType"))

/-- `make_dipole_corrector_fieldmesh` (corrector_modeling.py, lines 729-904):
mode dispatch and parameter handling.  In rectangular mode the
`a`/`b`/`h` check comes before the default grid bounds; in saddle mode the
default grid bounds (computed from `R` and `L`) come BEFORE the
`R`/`L`/`theta` check, exactly as in the source. -/
noncomputable def make_dipole_corrector_fieldmesh
    (current : ℝ) (xmin xmax : Option ℝ) (nx : ℕ) (ymin ymax : Option ℝ) (ny : ℕ)
    (zmin zmax : Option ℝ) (nz : ℕ) (mode : String)
    (a b h : Option ℝ) (R L theta : Option ℝ) (npts : Option ℕ) :
    Except PyError FieldMeshData :=
  if mode = "rectangular" then
    match a, b, h with
    | some a', some b', some h' =>
      let f : ℝ := 0.99
      let xmin' := xmin.getD (-(f * a'))
      let ymin' := ymin.getD (-(f * h' / 2))
      let zmin' := zmin.getD (-(5 * b'))
      let xmax' := xmax.getD (f * a')
      let ymax' := ymax.getD (f * h' / 2)
      let zmax' := zmax.getD (5 * b')
      .ok (make_rectangular_dipole_corrector_fieldmesh a' b' h' current
        xmin' xmax' ymin' ymax' zmin' zmax' nx ny nz)
    | _, _, _ =>
      .error (.valueError ("Parameters a, b, and h must be provided for rectangular mode."))
  else if mode = "saddle" then
    match saddleDefaultNeg xmin R with
    | .error e => .error e
    | .ok xmin' =>
      match saddleDefaultNeg ymin R with
      | .error e => .error e
      | .ok ymin' =>
        match saddleDefaultZmin zmin L with
        | .error e => .error e
        | .ok zmin' =>
          match saddleDefaultPos xmax R with
          | .error e => .error e
          | .ok xmax' =>
            match saddleDefaultPos ymax R with
            | .error e => .error e
            | .ok ymax' =>
              match saddleDefaultZmax zmax L with
              | .error e => .error e
              | .ok zmax' =>
                match R, L, theta with
                | some R', some L', some theta' =>
                  make_saddle_dipole_corrector_fieldmesh R' L' theta' current
                    xmin' xmax' ymin' ymax' zmin' zmax' nx ny nz npts
                | _, _, _ =>
                  .error (.valueError ("Parameters R, L, and theta must be provided for saddle mode."))
  else
    .error (.valueError ("Invalid mode. Choose either rectangular or saddle."))

/-- The straight-wire field as the SPEC words it (refinement target for the
formula claim): ê1 the unit vector along the segment, the foot of the
perpendicular from the observation point onto the infinite line, R the
perpendicular distance, ê2 the radial unit vector, ê3 = ê1 × ê2, x1 and x2
the signed projections of p1 and p2 onto ê1 relative to the foot, and
B0 = (μ0·I / 4πR) · (x2/√(x2²+R²) − x1/√(x1²+R²)); field = B0·ê3. -/
noncomputable def specStraightWireField (P p1 p2 : Vec3) (current : ℝ) : Vec3 :=
  let e1 := (1 / Vec3.norm (p2 - p1)) • (p2 - p1)
  let foot := p1 + dot (P - p1) e1 • e1
  let R := Vec3.norm (P - foot)
  let e2 := (1 / R) • (P - foot)
  let e3 := cross e1 e2
  let x1 := dot (p1 - foot) e1
  let x2 := dot (p2 - foot) e1
  (u0 * current / (4 * π * R) *
    (x2 / Real.sqrt (x2 ^ 2 + R ^ 2) - x1 / Real.sqrt (x1 ^ 2 + R ^ 2))) • e3

/-! Theorems settling the claims. -/

/-! Evaluation of the straight-wire frame at the spec's concrete scenario:
wire from (0,0,-1) to (0,0,1), observation point (1,0,0). -/

lemma wire_sample_ne : (⟨0, 0, -1⟩ : Vec3) ≠ ⟨0, 0, 1⟩ := by
  intro hc
  have hz := congrArg Vec3.z hc
  norm_num at hz

lemma wire_sample_sub : (⟨0, 0, 1⟩ : Vec3) - ⟨0, 0, -1⟩ = ⟨0, 0, 2⟩ := by
  ext <;> norm_num

lemma wire_sample_normL : Vec3.norm ((⟨0, 0, 1⟩ : Vec3) - ⟨0, 0, -1⟩) = 2 := by
  rw [wire_sample_sub]
  unfold Vec3.norm Vec3.dot
  norm_num
  rw [show (4 : ℝ) = 2 ^ 2 by norm_num]
  exact Real.sqrt_sq (by norm_num)

lemma wire_sample_Lhat : Wire.Lhat ⟨0, 0, -1⟩ ⟨0, 0, 1⟩ = ⟨0, 0, 1⟩ := by
  unfold Wire.Lhat
  rw [wire_sample_normL, wire_sample_sub]
  ext <;> norm_num

lemma wire_sample_tmin : Wire.tmin ⟨0, 0, -1⟩ ⟨0, 0, 1⟩ ⟨1, 0, 0⟩ = 1 := by
  unfold Wire.tmin
  rw [wire_sample_Lhat]
  simp [Vec3.dot]

lemma wire_sample_lmin : Wire.lmin ⟨0, 0, -1⟩ ⟨0, 0, 1⟩ ⟨1, 0, 0⟩ = ⟨0, 0, 0⟩ := by
  unfold Wire.lmin
  rw [wire_sample_tmin, wire_sample_Lhat]
  ext <;> norm_num

lemma wire_sample_Rdist : Wire.Rdist ⟨0, 0, -1⟩ ⟨0, 0, 1⟩ ⟨1, 0, 0⟩ = 1 := by
  unfold Wire.Rdist
  rw [wire_sample_lmin]
  rw [show (⟨1, 0, 0⟩ : Vec3) - ⟨0, 0, 0⟩ = ⟨1, 0, 0⟩ by ext <;> simp]
  unfold Vec3.norm Vec3.dot
  norm_num

lemma wire_sample_e2 : Wire.e2 ⟨0, 0, -1⟩ ⟨0, 0, 1⟩ ⟨1, 0, 0⟩ = ⟨1, 0, 0⟩ := by
  unfold Wire.e2
  rw [wire_sample_Rdist, wire_sample_lmin]
  ext <;> simp

lemma wire_sample_e3 : Wire.e3 ⟨0, 0, -1⟩ ⟨0, 0, 1⟩ ⟨1, 0, 0⟩ = ⟨0, 1, 0⟩ := by
  unfold Wire.e3
  rw [wire_sample_Lhat, wire_sample_e2]
  ext <;> simp [Vec3.cross]

lemma wire_sample_x1 : Wire.x1 ⟨0, 0, -1⟩ ⟨0, 0, 1⟩ ⟨1, 0, 0⟩ = -1 := by
  unfold Wire.x1
  rw [wire_sample_lmin, wire_sample_Lhat]
  simp [Vec3.dot]

lemma wire_sample_x2 : Wire.x2 ⟨0, 0, -1⟩ ⟨0, 0, 1⟩ ⟨1, 0, 0⟩ = 1 := by
  unfold Wire.x2
  rw [wire_sample_lmin, wire_sample_Lhat]
  simp [Vec3.dot]

lemma norm_smul_abs (t : ℝ) (v : Vec3) : Vec3.norm (t • v) = |t| * Vec3.norm v := by
  unfold Vec3.norm Vec3.dot
  simp only [smul_x, smul_y, smul_z]
  rw [show t * v.x * (t * v.x) + t * v.y * (t * v.y) + t * v.z * (t * v.z) =
    t ^ 2 * (v.x * v.x + v.y * v.y + v.z * v.z) by ring]
  rw [Real.sqrt_mul (sq_nonneg t), Real.sqrt_sq_eq_abs]

lemma wire_sample_B0 :
    Wire.B0 ⟨0, 0, -1⟩ ⟨0, 0, 1⟩ ⟨1, 0, 0⟩ 10 = u0 * 10 * Real.sqrt 2 / (4 * π) := by
  unfold Wire.B0
  rw [wire_sample_x1, wire_sample_x2, wire_sample_Rdist]
  rw [show ((1 : ℝ) ^ 2 + 1 ^ 2) = 2 by norm_num,
    show ((-1 : ℝ) ^ 2 + 1 ^ 2) = 2 by norm_num]
  have hs0 : (0 : ℝ) < Real.sqrt 2 := Real.sqrt_pos.mpr (by norm_num)
  have hsq : Real.sqrt 2 * Real.sqrt 2 = 2 := Real.mul_self_sqrt (by norm_num)
  have hstep : (1 : ℝ) / Real.sqrt 2 - (-1 : ℝ) / Real.sqrt 2 = Real.sqrt 2 := by
    rw [show (1 : ℝ) / Real.sqrt 2 - (-1 : ℝ) / Real.sqrt 2 = 2 / Real.sqrt 2 by ring,
      div_eq_iff (ne_of_gt hs0)]
    exact hsq.symm
  rw [hstep]
  ring

/-- C1: `bfield_from_thin_straight_wire` returns B0·ê3 with ê3 = ê1 × ê2 and
B0 = (μ0·I/4πR)·(x2/√(x2²+R²) − x1/√(x1²+R²)), x1 and x2 the signed
projections of p1, p2 relative to the foot of the perpendicular; and for the
wire (0,0,-1)→(0,0,1) at 10 A sampled at (1,0,0) the field magnitude equals
μ0·10·√2/(4π) exactly (hence within 1e-9 relative). -/
theorem straight_wire_field_formula_and_sample
    (P p1 p2 : Vec3) (current : ℝ) (_hne : p1 ≠ p2)
    (_hR : 0 < Wire.Rdist p1 p2 P) :
    bfield_from_thin_straight_wire P p1 p2 current =
      specStraightWireField P p1 p2 current ∧
    Vec3.norm (bfield_from_thin_straight_wire ⟨1, 0, 0⟩ ⟨0, 0, -1⟩ ⟨0, 0, 1⟩ 10) =
      u0 * 10 * Real.sqrt 2 / (4 * π) := by
  constructor
  · rfl
  · unfold bfield_from_thin_straight_wire
    rw [wire_sample_B0, wire_sample_e3]
    have hc : (0 : ℝ) ≤ u0 * 10 * Real.sqrt 2 / (4 * π) := by
      have hu : (0 : ℝ) < u0 := by norm_num [u0]
      exact div_nonneg
        (mul_nonneg (mul_nonneg hu.le (by norm_num)) (Real.sqrt_nonneg 2))
        (by positivity)
    rw [norm_smul_abs,
      show Vec3.norm ⟨0, 1, 0⟩ = 1 by unfold Vec3.norm Vec3.dot; norm_num,
      mul_one, abs_of_nonneg hc]

/-- Witness for C1 at the spec's concrete scenario. -/
theorem straight_wire_field_formula_and_sample_witness :
    bfield_from_thin_straight_wire ⟨1, 0, 0⟩ ⟨0, 0, -1⟩ ⟨0, 0, 1⟩ 10 =
      specStraightWireField ⟨1, 0, 0⟩ ⟨0, 0, -1⟩ ⟨0, 0, 1⟩ 10 ∧
    Vec3.norm (bfield_from_thin_straight_wire ⟨1, 0, 0⟩ ⟨0, 0, -1⟩ ⟨0, 0, 1⟩ 10) =
      u0 * 10 * Real.sqrt 2 / (4 * π) :=
  straight_wire_field_formula_and_sample ⟨1, 0, 0⟩ ⟨0, 0, -1⟩ ⟨0, 0, 1⟩ 10
    wire_sample_ne (by rw [wire_sample_Rdist]; norm_num)

/-- C2: for every observation point and parameters `a`, `b`, `h`, `current`,
the rectangular-corrector field equals the elementwise sum of the fields of
its two constituent rectangular coils at `y0 = -h/2` and `y0 = +h/2` with the
same current (linear superposition, at every grid point). -/
theorem rectangular_corrector_is_sum_of_two_coils
    (P : Vec3) (a b h current : ℝ) :
    bfield_from_thin_rectangular_corrector P a b h current =
      bfield_from_thin_rectangular_coil P a b (-h / 2) current +
        bfield_from_thin_rectangular_coil P a b (h / 2) current := rfl

/-- C3: for every non-degenerate segment, every current and every observation
point, swapping the endpoints while negating the current leaves the returned
field unchanged. -/
theorem straight_wire_current_reversal
    (P p1 p2 : Vec3) (current : ℝ) (hne : p1 ≠ p2) :
    bfield_from_thin_straight_wire P p2 p1 (-current) =
      bfield_from_thin_straight_wire P p1 p2 current := by
  unfold bfield_from_thin_straight_wire
  rw [Wire.B0_swap hne, Wire.e3_swap hne, smul_neg', neg_neg]

/-- Witness for C3 at the concrete wire (0,0,-1)→(0,0,1), current 10 A,
observation point (1,0,0). -/
theorem straight_wire_current_reversal_witness :
    bfield_from_thin_straight_wire ⟨1, 0, 0⟩ ⟨0, 0, 1⟩ ⟨0, 0, -1⟩ (-10) =
      bfield_from_thin_straight_wire ⟨1, 0, 0⟩ ⟨0, 0, -1⟩ ⟨0, 0, 1⟩ 10 :=
  straight_wire_current_reversal ⟨1, 0, 0⟩ ⟨0, 0, -1⟩ ⟨0, 0, 1⟩ 10
    (by intro hc; have hz := congrArg Vec3.z hc; norm_num at hz)

/-- C4: a degenerate segment (p1 = p2) makes `bfield_from_thin_straight_wire`
fail with the GeometryError-class assertion before any field computation; no
field arrays are returned for any flag combination. -/
theorem straight_wire_degenerate_segment_errors
    (P p1 p2 : Vec3) (current : ℝ) (plot_wire return_axes : Bool) (h : p1 = p2) :
    bfield_from_thin_straight_wire_checked P p1 p2 current plot_wire return_axes =
      Except.error (.geometryError ("Line must be specified by 2 distinct points")) := by
  subst h
  unfold bfield_from_thin_straight_wire_checked
  rw [if_neg]
  simp

/-- Witness for C4 at a concrete degenerate segment. -/
theorem straight_wire_degenerate_segment_errors_witness :
    bfield_from_thin_straight_wire_checked ⟨0, 0, 0⟩ ⟨1, 2, 3⟩ ⟨1, 2, 3⟩ 5 false false =
      Except.error (.geometryError ("Line must be specified by 2 distinct points")) :=
  straight_wire_degenerate_segment_errors ⟨0, 0, 0⟩ ⟨1, 2, 3⟩ ⟨1, 2, 3⟩ 5 false false rfl

/-- C9: with a non-degenerate segment and both `plot_wire=True` and
`return_axes=True`, `bfield_from_thin_straight_wire` returns `None` (its
final branch evaluates a bare tuple expression without `return`); the field
components are returned exactly when that flag combination does not hold. -/
theorem straight_wire_plot_return_axes_returns_none
    (P p1 p2 : Vec3) (current : ℝ) (hne : p1 ≠ p2) :
    bfield_from_thin_straight_wire_checked P p1 p2 current true true =
      Except.ok none ∧
    ∀ plot_wire return_axes : Bool, (plot_wire && return_axes) = false →
      bfield_from_thin_straight_wire_checked P p1 p2 current plot_wire return_axes =
        Except.ok (some (bfield_from_thin_straight_wire P p1 p2 current)) := by
  have hpos : 0 < Vec3.norm (p2 - p1) :=
    norm_pos_of_ne_zero (sub_ne_zero_of_ne hne)
  constructor
  · simp [bfield_from_thin_straight_wire_checked, hpos]
  · intro plot_wire return_axes hfalse
    simp [bfield_from_thin_straight_wire_checked, hpos, hfalse]

/-- Witness for C9 at the concrete wire (0,0,-1)→(0,0,1), 10 A. -/
theorem straight_wire_plot_return_axes_returns_none_witness :
    bfield_from_thin_straight_wire_checked ⟨1, 0, 0⟩ ⟨0, 0, -1⟩ ⟨0, 0, 1⟩ 10 true true =
      Except.ok none ∧
    bfield_from_thin_straight_wire_checked ⟨1, 0, 0⟩ ⟨0, 0, -1⟩ ⟨0, 0, 1⟩ 10 true false =
      Except.ok (some (bfield_from_thin_straight_wire ⟨1, 0, 0⟩ ⟨0, 0, -1⟩ ⟨0, 0, 1⟩ 10)) := by
  have hne : (⟨0, 0, -1⟩ : Vec3) ≠ ⟨0, 0, 1⟩ := by
    intro hc
    have hz := congrArg Vec3.z hc
    norm_num at hz
  exact ⟨(straight_wire_plot_return_axes_returns_none ⟨1, 0, 0⟩ ⟨0, 0, -1⟩ ⟨0, 0, 1⟩ 10 hne).1,
    (straight_wire_plot_return_axes_returns_none ⟨1, 0, 0⟩ ⟨0, 0, -1⟩ ⟨0, 0, 1⟩ 10 hne).2
      true false rfl⟩

/-! Helper lemmas for the arc decomposer. -/

lemma arc_len (h R theta : ℝ) (npts : ℕ) :
    (get_arc_vectors h R theta npts).length = npts := by
  simp [get_arc_vectors]

lemma rotate_rotate_e1 (t phi : ℝ) :
    rotate_around_e3 t (rotate_around_e3 phi ⟨1, 0, 0⟩) =
      ⟨Real.cos (phi + t), Real.sin (phi + t), 0⟩ := by
  apply Vec3.ext
  · simp [rotate_around_e3, Real.cos_add]
    ring
  · simp [rotate_around_e3, Real.sin_add]
    ring
  · simp [rotate_around_e3]

lemma norm_cos_sin (a : ℝ) : Vec3.norm ⟨Real.cos a, Real.sin a, 0⟩ = 1 := by
  show Real.sqrt (Real.cos a * Real.cos a + Real.sin a * Real.sin a + 0 * 0) = 1
  rw [show Real.cos a * Real.cos a + Real.sin a * Real.sin a + 0 * 0 = 1 from by
    linear_combination Real.sin_sq_add_cos_sq a]
  exact Real.sqrt_one

lemma linspace_zero_left (theta : ℝ) (npts i : ℕ) :
    linspace 0 theta npts i = (i : ℝ) * (theta / ((npts : ℝ) - 1)) := by
  unfold linspace
  ring

lemma get_arc_vectors_point (h R theta : ℝ) (npts : ℕ) (i : ℕ) (hi : i < npts) :
    (get_arc_vectors h R theta npts).getD i 0 =
      ⟨R * Real.cos ((π - theta) / 2 + i * (theta / ((npts : ℝ) - 1))),
       R * Real.sin ((π - theta) / 2 + i * (theta / ((npts : ℝ) - 1))), h⟩ := by
  unfold get_arc_vectors
  rw [List.getD_eq_getElem?_getD, List.getElem?_map, List.getElem?_range hi]
  simp only [Option.map_some', Option.getD_some]
  rw [linspace_zero_left, rotate_rotate_e1]
  ext <;> simp

/-- C6: a successful rectangular-dipole mesh build carries the attrs recorded
by the source: origin = (xmin, ymin, zmin), per-axis spacing
(max − min)/(count − 1), gridSize = the field-array shape (nx, ny, nz),
eleAnchorPt "center", gridGeometry "rectangular", axisLabels (x, y, z),
gridLowerBound (0,0,0), harmonic 0, fundamentalFrequency 0, and the three
magneticField components each of shape gridSize. -/
theorem rectangular_mesh_attrs
    (a b h current xmin xmax ymin ymax zmin zmax : ℝ) (nx ny nz : ℕ)
    (_hnx : 2 ≤ nx) (_hny : 2 ≤ ny) (_hnz : 2 ≤ nz) :
    (make_rectangular_dipole_corrector_fieldmesh a b h current
        xmin xmax ymin ymax zmin zmax nx ny nz).gridOriginOffset =
      (xmin, ymin, zmin) ∧
    (make_rectangular_dipole_corrector_fieldmesh a b h current
        xmin xmax ymin ymax zmin zmax nx ny nz).gridSpacing =
      ((xmax - xmin) / ((nx : ℝ) - 1), (ymax - ymin) / ((ny : ℝ) - 1),
       (zmax - zmin) / ((nz : ℝ) - 1)) ∧
    (make_rectangular_dipole_corrector_fieldmesh a b h current
        xmin xmax ymin ymax zmin zmax nx ny nz).gridSize = (nx, ny, nz) ∧
    (make_rectangular_dipole_corrector_fieldmesh a b h current
        xmin xmax ymin ymax zmin zmax nx ny nz).eleAnchorPt = "center" ∧
    (make_rectangular_dipole_corrector_fieldmesh a b h current
        xmin xmax ymin ymax zmin zmax nx ny nz).gridGeometry = "rectangular" ∧
    (make_rectangular_dipole_corrector_fieldmesh a b h current
        xmin xmax ymin ymax zmin zmax nx ny nz).axisLabels = ("x", "y", "z") ∧
    (make_rectangular_dipole_corrector_fieldmesh a b h current
        xmin xmax ymin ymax zmin zmax nx ny nz).gridLowerBound = (0, 0, 0) ∧
    (make_rectangular_dipole_corrector_fieldmesh a b h current
        xmin xmax ymin ymax zmin zmax nx ny nz).harmonic = 0 ∧
    (make_rectangular_dipole_corrector_fieldmesh a b h current
        xmin xmax ymin ymax zmin zmax nx ny nz).fundamentalFrequency = 0 ∧
    (make_rectangular_dipole_corrector_fieldmesh a b h current
        xmin xmax ymin ymax zmin zmax nx ny nz).components.map Prod.fst =
      ["magneticField/x", "magneticField/y", "magneticField/z"] ∧
    ∀ c ∈ (make_rectangular_dipole_corrector_fieldmesh a b h current
        xmin xmax ymin ymax zmin zmax nx ny nz).components,
      c.2.shape = (make_rectangular_dipole_corrector_fieldmesh a b h current
        xmin xmax ymin ymax zmin zmax nx ny nz).gridSize := by
  refine ⟨?_, ?_, rfl, rfl, rfl, rfl, rfl, rfl, rfl, rfl, ?_⟩
  · show (linspace xmin xmax nx 0, linspace ymin ymax ny 0, linspace zmin zmax nz 0) =
      (xmin, ymin, zmin)
    simp [linspace]
  · show (linspace xmin xmax nx 1 - linspace xmin xmax nx 0,
      linspace ymin ymax ny 1 - linspace ymin ymax ny 0,
      linspace zmin zmax nz 1 - linspace zmin zmax nz 0) =
      ((xmax - xmin) / ((nx : ℝ) - 1), (ymax - ymin) / ((ny : ℝ) - 1),
       (zmax - zmin) / ((nz : ℝ) - 1))
    simp [linspace]
  · intro c hc
    simp only [make_rectangular_dipole_corrector_fieldmesh, List.mem_cons,
      List.mem_singleton, List.not_mem_nil, or_false] at hc
    rcases hc with hcx | hcy | hcz
    · subst hcx; rfl
    · subst hcy; rfl
    · subst hcz; rfl

/-- Witness for C6 at a concrete successful build. -/
theorem rectangular_mesh_attrs_witness :
    (make_rectangular_dipole_corrector_fieldmesh 0.5 1 0.2 10
        (-1) 1 (-1) 1 (-1) 1 3 3 3).gridOriginOffset = (-1, -1, -1) ∧
    (make_rectangular_dipole_corrector_fieldmesh 0.5 1 0.2 10
        (-1) 1 (-1) 1 (-1) 1 3 3 3).gridSpacing = (1, 1, 1) ∧
    (make_rectangular_dipole_corrector_fieldmesh 0.5 1 0.2 10
        (-1) 1 (-1) 1 (-1) 1 3 3 3).gridSize = (3, 3, 3) := by
  have hm := rectangular_mesh_attrs 0.5 1 0.2 10 (-1) 1 (-1) 1 (-1) 1 3 3 3
    (by norm_num) (by norm_num) (by norm_num)
  refine ⟨hm.1, ?_, hm.2.2.1⟩
  rw [hm.2.1]
  norm_num

/-- C7: the arc decomposer emits exactly `npts` points, all at height z = h
(the plane perpendicular to the normal (0,0,1) at offset h), all at distance
|R| from the arc center (0,0,h), with azimuths starting at φ = (π−θ)/2,
advancing by θ/(npts−1) per point and reaching φ + θ at the last point; the
arc field is the sum of the straight-segment fields of the npts−1 segments
chaining consecutive points. -/
theorem arc_decomposition (h R theta : ℝ) (npts : ℕ) (hN : 2 ≤ npts)
    (current : ℝ) (P : Vec3) :
    (get_arc_vectors h R theta npts).length = npts ∧
    (∀ i : ℕ, i < npts → (get_arc_vectors h R theta npts).getD i 0 =
      ⟨R * Real.cos ((π - theta) / 2 + i * (theta / ((npts : ℝ) - 1))),
       R * Real.sin ((π - theta) / 2 + i * (theta / ((npts : ℝ) - 1))), h⟩) ∧
    (get_arc_vectors h R theta npts).getD 0 0 =
      ⟨R * Real.cos ((π - theta) / 2), R * Real.sin ((π - theta) / 2), h⟩ ∧
    (get_arc_vectors h R theta npts).getD (npts - 1) 0 =
      ⟨R * Real.cos ((π - theta) / 2 + theta),
       R * Real.sin ((π - theta) / 2 + theta), h⟩ ∧
    (∀ p ∈ get_arc_vectors h R theta npts, p.z = h) ∧
    (∀ p ∈ get_arc_vectors h R theta npts, Vec3.norm (p - ⟨0, 0, h⟩) = |R|) ∧
    bfield_from_thin_wire_arc P h R theta npts current =
      ∑ ii ∈ Finset.range (npts - 1),
        bfield_from_thin_straight_wire P
          ((get_arc_vectors h R theta npts).getD ii 0)
          ((get_arc_vectors h R theta npts).getD (ii + 1) 0) current := by
  have hn1 : ((npts : ℝ) - 1) ≠ 0 := by
    have : (2 : ℝ) ≤ (npts : ℝ) := by exact_mod_cast hN
    intro hc
    nlinarith
  refine ⟨arc_len h R theta npts, get_arc_vectors_point h R theta npts, ?_, ?_, ?_, ?_, ?_⟩
  · rw [get_arc_vectors_point h R theta npts 0 (by omega)]
    norm_num
  · rw [get_arc_vectors_point h R theta npts (npts - 1) (by omega)]
    rw [show ((npts - 1 : ℕ) : ℝ) * (theta / ((npts : ℝ) - 1)) = theta from by
      rw [Nat.cast_sub (by omega : 1 ≤ npts)]
      push_cast
      field_simp]
  · intro p hp
    unfold get_arc_vectors at hp
    simp only [List.mem_map, List.mem_range] at hp
    rcases hp with ⟨i, _hi, rfl⟩
    rw [linspace_zero_left, rotate_rotate_e1]
    simp
  · intro p hp
    unfold get_arc_vectors at hp
    simp only [List.mem_map, List.mem_range] at hp
    rcases hp with ⟨i, _hi, rfl⟩
    rw [linspace_zero_left, rotate_rotate_e1]
    rw [show (⟨0, 0, h⟩ : Vec3) +
        R • (⟨Real.cos ((π - theta) / 2 + i * (theta / ((npts : ℝ) - 1))),
          Real.sin ((π - theta) / 2 + i * (theta / ((npts : ℝ) - 1))), 0⟩ : Vec3) -
        ⟨0, 0, h⟩ =
        R • (⟨Real.cos ((π - theta) / 2 + i * (theta / ((npts : ℝ) - 1))),
          Real.sin ((π - theta) / 2 + i * (theta / ((npts : ℝ) - 1))), 0⟩ : Vec3) from by
      ext <;> simp]
    rw [norm_smul_abs, norm_cos_sin, mul_one]
  · unfold bfield_from_thin_wire_arc
    rw [arc_len]

/-- Witness for C7 at a concrete arc (h = 0.5, R = 1, θ = π/2, 4 points). -/
theorem arc_decomposition_witness :
    (get_arc_vectors 0.5 1 (π / 2) 4).length = 4 ∧
    (∀ p ∈ get_arc_vectors 0.5 1 (π / 2) 4, p.z = 0.5) := by
  have ha := arc_decomposition 0.5 1 (π / 2) 4 (by norm_num) 1 ⟨0, 0, 0⟩
  exact ⟨ha.1, ha.2.2.2.2.1⟩

/-- C8: indexing a FieldMesh with a key that is neither a stored component,
nor a registered alias resolving to a stored component, nor the composite key
E or B, raises the "Key not available" lookup error — it never returns a
default. -/
theorem getitem_unknown_key_errors (m : FieldMeshData) (key : String)
    (h1 : m.components.lookup key = none)
    (h2 : ∀ comp, component_from_alias.lookup key = some comp →
      m.components.lookup comp = none)
    (hE : key ≠ "E") (hB : key ≠ "B") :
    m.getitem key = Except.error (.valueError ("Key not available: " ++ key)) := by
  unfold FieldMeshData.getitem FieldMeshData.getByKeyOrAlias
  rw [h1]
  cases halias : component_from_alias.lookup key with
  | none =>
    simp only [FieldMeshData.getitemFallback, if_neg hE, if_neg hB]
  | some comp =>
    simp only [h2 comp halias, FieldMeshData.getitemFallback, if_neg hE, if_neg hB]

/-- Witness for C8: `mesh['Bq']` on a concrete rectangular-corrector mesh. -/
theorem getitem_unknown_key_errors_witness :
    (make_rectangular_dipole_corrector_fieldmesh 0.5 1 0.2 10
        (-1) 1 (-1) 1 (-1) 1 3 3 3).getitem ("Bq") =
      Except.error (.valueError ("Key not available: Bq")) :=
  getitem_unknown_key_errors
    (make_rectangular_dipole_corrector_fieldmesh 0.5 1 0.2 10 (-1) 1 (-1) 1 (-1) 1 3 3 3)
    "Bq" rfl
    (by
      intro comp hc
      rw [show List.lookup ("Bq") component_from_alias = none from rfl] at hc
      exact Option.noConfusion hc)
    (by decide) (by decide)

/-- C10: on any FieldMesh whose gridGeometry is "rectangular" — as produced
by every mesh builder in corrector_modeling.py — `axis_labels`, `axis_index`
and `coord_vec` all raise the KeyError from `axis_labels_from_geometry`,
whose only keys are "cartesian" and "cylindrical"; the stored axisLabels
attribute plays no role in these accessors. -/
theorem rectangular_geometry_axis_accessors_error (m : FieldMeshData)
    (h : m.gridGeometry = "rectangular") :
    m.axis_labels = Except.error (.keyError ("rectangular")) ∧
    (∀ key, m.axis_index key = Except.error (.keyError ("rectangular"))) ∧
    (∀ key, m.coord_vec key = Except.error (.keyError ("rectangular"))) ∧
    (∀ (a b hh current xmin xmax ymin ymax zmin zmax : ℝ) (nx ny nz : ℕ),
      (make_rectangular_dipole_corrector_fieldmesh a b hh current
        xmin xmax ymin ymax zmin zmax nx ny nz).gridGeometry = "rectangular") ∧
    (∀ (R L theta current xmin xmax ymin ymax zmin zmax : ℝ) (nx ny nz n : ℕ)
      (mm : FieldMeshData),
      make_saddle_dipole_corrector_fieldmesh R L theta current
        xmin xmax ymin ymax zmin zmax nx ny nz (some n) = Except.ok mm →
      mm.gridGeometry = "rectangular") ∧
    (∀ (p1 p2 : Vec3) (current xmin xmax ymin ymax zmin zmax : ℝ) (nx ny nz : ℕ),
      (make_thin_straight_wire_fieldmesh p1 p2 current
        xmin xmax ymin ymax zmin zmax nx ny nz).gridGeometry = "rectangular") := by
  have hal : m.axis_labels = Except.error (.keyError ("rectangular")) := by
    unfold FieldMeshData.axis_labels
    rw [h]
    rfl
  have hai : ∀ key, m.axis_index key = Except.error (.keyError ("rectangular")) := by
    intro key
    unfold FieldMeshData.axis_index
    rw [hal]
  refine ⟨hal, hai, ?_, fun _ _ _ _ _ _ _ _ _ _ _ _ _ => rfl, ?_, fun _ _ _ _ _ _ _ _ _ _ _ _ => rfl⟩
  · intro key
    unfold FieldMeshData.coord_vec
    rw [hai key]
  · intro R L theta current xmin xmax ymin ymax zmin zmax nx ny nz n mm hmk
    simp only [make_saddle_dipole_corrector_fieldmesh, Except.ok.injEq] at hmk
    rw [← hmk]

/-- Witness for C10 on a concrete rectangular-corrector mesh. -/
theorem rectangular_geometry_axis_accessors_error_witness :
    (make_rectangular_dipole_corrector_fieldmesh 0.5 1 0.2 10
        (-1) 1 (-1) 1 (-1) 1 3 3 3).axis_labels =
      Except.error (.keyError ("rectangular")) ∧
    (make_rectangular_dipole_corrector_fieldmesh 0.5 1 0.2 10
        (-1) 1 (-1) 1 (-1) 1 3 3 3).axis_index ("x") =
      Except.error (.keyError ("rectangular")) := by
  have hg := rectangular_geometry_axis_accessors_error
    (make_rectangular_dipole_corrector_fieldmesh 0.5 1 0.2 10 (-1) 1 (-1) 1 (-1) 1 3 3 3)
    rfl
  exact ⟨hg.1, hg.2.1 "x"⟩

/-- C5 (evidence of the code bug): in saddle mode with `R` omitted and the
grid bounds left to their defaults, `make_dipole_corrector_fieldmesh` fails
with the TypeError raised while computing the default `xmin = -R`, before
ever reaching the check that would raise the ConfigurationError naming the
missing parameter. -/
theorem saddle_missing_R_typeerror :
    make_dipole_corrector_fieldmesh 1 none none 101 none none 101 none none 101
      "saddle" none none none none (some 1) (some 0.8) (some 20) =
      Except.error (.typeError ("bad operand type for unary minus: NoneType")) := by
  rfl

end PmdBeamphysics
